import Mathlib

/-!
Shallow embedding of `src/src/components/MermaidRenderer.tsx`: the diagram
render-and-export pipeline (render controller `renderChart` and raster
exporter `downloadAsPNG`), together with proofs about its behaviour.

Machine numbers that the DOM reports as floating-point lengths are modelled
as rationals; the asynchronous suspension points (the engine compile step and
the image decode / pixel-encode step) are modelled by explicit outcome
parameters and an event-trace step relation.
-/

/-! ### Generic string machinery (JS `String.prototype` operations) -/

/-- `isPrefixOfList p l` is true when the char list `p` is an initial segment of `l`. -/
def isPrefixOfList : List Char → List Char → Bool
  | [], _ => true
  | _ :: _, [] => false
  | a :: as, b :: bs => a == b && isPrefixOfList as bs

/-- `occursIn p l` is true when the char list `p` occurs contiguously inside `l`. -/
def occursIn (p : List Char) : List Char → Bool
  | [] => p.isEmpty
  | c :: rest => isPrefixOfList p (c :: rest) || occursIn p rest

/-- Replace the first occurrence of `p` in the char list by `r`,
like JS `String.prototype.replace` with a string pattern (for nonempty `p`). -/
def replFirst (p r : List Char) : List Char → List Char
  | [] => []
  | c :: rest =>
      if isPrefixOfList p (c :: rest) then r ++ (c :: rest).drop p.length
      else c :: replFirst p r rest

/-- JS `s.replace(pat, rep)` with a string pattern: only the first occurrence
of `pat` is replaced (line 83 / line 98 of the source use this semantics). -/
def replaceFirst (s pat rep : String) : String :=
  ⟨replFirst pat.data rep.data s.data⟩

/-- The whitespace characters relevant to JS `String.prototype.trim`
for the diagram strings of this program. -/
def isJsWhitespace (c : Char) : Bool :=
  c == ' ' || c == '\t' || c == '\n' || c == '\r'

/-- `trimmedEmpty s` is true exactly when JS `s.trim()` is the empty string,
i.e. when `s.trim()` is falsy in the boolean positions of lines 132 and 173. -/
def trimmedEmpty (s : String) : Bool :=
  s.data.all isJsWhitespace

/-! ### Decimal rendering of the triggering instant (JS template `${Date.now()}`) -/

/-- The character of a single decimal digit. -/
def decDigit (d : Nat) : Char :=
  Char.ofNat (48 + d % 10)

/-- Little-endian decimal digits of `n`, with explicit fuel so that the
definition is structurally recursive (empty for `n = 0`). -/
def natDigitsRev (fuel : Nat) (n : Nat) : List Nat :=
  match fuel with
  | 0 => []
  | f + 1 => if n = 0 then [] else (n % 10) :: natDigitsRev f (n / 10)

/-- Value of a little-endian digit list. -/
def ofDigitsRev : List Nat → Nat
  | [] => 0
  | d :: ds => d + 10 * ofDigitsRev ds

/-- Little-endian decimal digits of `n` with sufficient fuel. -/
def natDigits (n : Nat) : List Nat := natDigitsRev (n + 1) n

/-- Decimal string of a natural number, as JS renders an integer-valued
number inside a template literal. -/
def natDecimal (n : Nat) : String :=
  ⟨if n = 0 then ['0'] else (natDigits n).reverse.map decDigit⟩

theorem ofDigitsRev_natDigitsRev (fuel : Nat) :
    ∀ n : Nat, n < fuel → ofDigitsRev (natDigitsRev fuel n) = n := by
  induction fuel with
  | zero => intro n h; omega
  | succ f ih =>
      intro n h
      by_cases h0 : n = 0
      · simp [natDigitsRev, h0, ofDigitsRev]
      · have hlt : n / 10 < f := by
          have hdec : n / 10 < n := Nat.div_lt_self (Nat.pos_of_ne_zero h0) (by omega)
          omega
        simp only [natDigitsRev, h0, if_false, ofDigitsRev, ih (n / 10) hlt]
        omega

theorem ofDigitsRev_natDigits (n : Nat) : ofDigitsRev (natDigits n) = n :=
  ofDigitsRev_natDigitsRev (n + 1) n (Nat.lt_succ_self n)

theorem natDigitsRev_lt_ten (fuel : Nat) :
    ∀ n : Nat, ∀ d ∈ natDigitsRev fuel n, d < 10 := by
  induction fuel with
  | zero => intro n d hd; simp [natDigitsRev] at hd
  | succ f ih =>
      intro n d hd
      by_cases h0 : n = 0
      · simp [natDigitsRev, h0] at hd
      · simp only [natDigitsRev, h0, if_false, List.mem_cons] at hd
        rcases hd with h | h
        · omega
        · exact ih (n / 10) d h

theorem natDigits_lt_ten (n : Nat) : ∀ d ∈ natDigits n, d < 10 :=
  natDigitsRev_lt_ten (n + 1) n

theorem decDigit_inj : ∀ d1 < 10, ∀ d2 < 10, decDigit d1 = decDigit d2 → d1 = d2 := by
  decide

theorem map_decDigit_inj :
    ∀ (l1 l2 : List Nat), (∀ d ∈ l1, d < 10) → (∀ d ∈ l2, d < 10) →
      l1.map decDigit = l2.map decDigit → l1 = l2 := by
  intro l1
  induction l1 with
  | nil => intro l2 _ _ h; cases l2 <;> simp_all
  | cons a as ih =>
      intro l2 h1 h2 h
      cases l2 with
      | nil => simp at h
      | cons b bs =>
          simp only [List.map_cons, List.cons.injEq] at h
          have ha : a < 10 := h1 a (by simp)
          have hb : b < 10 := h2 b (by simp)
          have hab : a = b := decDigit_inj a ha b hb h.1
          have htl : as = bs :=
            ih bs (fun d hd => h1 d (by simp [hd])) (fun d hd => h2 d (by simp [hd])) h.2
          rw [hab, htl]

theorem natDecimal_inj : ∀ a b : Nat, natDecimal a = natDecimal b → a = b := by
  intro a b h
  have hdata : (natDecimal a).data = (natDecimal b).data := by rw [h]
  simp only [natDecimal] at hdata
  by_cases ha : a = 0 <;> by_cases hb : b = 0
  · rw [ha, hb]
  · exfalso
    simp only [ha, if_true, hb, if_false] at hdata
    have h0 : ([(0 : Nat)]).map decDigit = (natDigits b).reverse.map decDigit := by
      simpa [decDigit] using hdata
    have hrev : ([(0 : Nat)]) = (natDigits b).reverse :=
      map_decDigit_inj _ _ (by simp) (by
        intro d hd
        exact natDigits_lt_ten b d (List.mem_reverse.mp hd)) h0
    have hdig : natDigits b = [0] := by
      have := congrArg List.reverse hrev
      simpa using this.symm
    have : b = 0 := by
      have hv := ofDigitsRev_natDigits b
      rw [hdig] at hv
      simpa [ofDigitsRev] using hv.symm
    exact hb this
  · exfalso
    simp only [ha, if_false, hb, if_true] at hdata
    have h0 : (natDigits a).reverse.map decDigit = ([(0 : Nat)]).map decDigit := by
      simpa [decDigit] using hdata
    have hrev : (natDigits a).reverse = ([(0 : Nat)]) :=
      map_decDigit_inj _ _ (by
        intro d hd
        exact natDigits_lt_ten a d (List.mem_reverse.mp hd)) (by simp) h0
    have hdig : natDigits a = [0] := by
      have := congrArg List.reverse hrev
      simpa using this
    have : a = 0 := by
      have hv := ofDigitsRev_natDigits a
      rw [hdig] at hv
      simpa [ofDigitsRev] using hv.symm
    exact ha this
  · simp only [ha, if_false, hb, if_false] at hdata
    have hrev : (natDigits a).reverse = (natDigits b).reverse :=
      map_decDigit_inj _ _
        (by intro d hd; exact natDigits_lt_ten a d (List.mem_reverse.mp hd))
        (by intro d hd; exact natDigits_lt_ten b d (List.mem_reverse.mp hd)) hdata
    have hdig : natDigits a = natDigits b := by
      have := congrArg List.reverse hrev
      simpa using this
    have hv := ofDigitsRev_natDigits a
    rw [hdig, ofDigitsRev_natDigits b] at hv
    exact hv.symm

/-! ### The raster exporter `downloadAsPNG` (source lines 16-106)

DOM lengths are modelled as rationals.  The two asynchronous external
capabilities — decoding the serialized vector into an `Image` (the
`img.onload` / `img.onerror` branches, lines 59 and 91) and encoding the
canvas to a blob (`canvas.toBlob` delivering a blob, delivering `null`, or
the draw/encode call throwing synchronously into the `catch` of line 76) —
are passed in as explicit outcome parameters. -/

/-- A mounted `<svg>` element: its optional `viewBox` base values, its
bounding-client-rect size, its explicit `width`/`height` attributes, and the
rest of its markup. -/
structure SvgElement where
  viewBoxW : Option ℚ
  viewBoxH : Option ℚ
  rectW : ℚ
  rectH : ℚ
  widthAttr : Option String
  heightAttr : Option String
  body : String
deriving DecidableEq

/-- Line 27: `svgElement.viewBox?.baseVal?.width || svgRect.width` — the JS
`||` falls through both when no viewBox is declared and when its width is `0`
(falsy). -/
def svgWidthOf (e : SvgElement) : ℚ :=
  match e.viewBoxW with
  | some w => if w = 0 then e.rectW else w
  | none => e.rectW

/-- Line 28: `svgElement.viewBox?.baseVal?.height || svgRect.height`. -/
def svgHeightOf (e : SvgElement) : ℚ :=
  match e.viewBoxH with
  | some h => if h = 0 then e.rectH else h
  | none => e.rectH

/-- `element.setAttribute(name, value)` for the two attributes the exporter
stamps (lines 31-32). -/
def setAttribute (e : SvgElement) (name value : String) : SvgElement :=
  if name = "width" then
    ⟨e.viewBoxW, e.viewBoxH, e.rectW, e.rectH, some value, e.heightAttr, e.body⟩
  else if name = "height" then
    ⟨e.viewBoxW, e.viewBoxH, e.rectW, e.rectH, e.widthAttr, some value, e.body⟩
  else e

/-- `new XMLSerializer().serializeToString(...)` (line 53): the textual wire
form of an svg element. -/
def serializeSvg (e : SvgElement) : String :=
  "<svg width=" ++ (e.widthAttr.getD ("")) ++ " height=" ++ (e.heightAttr.getD ("")) ++
    ">" ++ e.body ++ "</svg>"

/-- The container div held by `mermaidRef`; `svgChild` is the result of
`querySelector('svg')` (line 19). -/
structure Container where
  svgChild : Option SvgElement
deriving DecidableEq

/-- Kind of a file handed to the browser save action. -/
inductive FileKind where
  | png : FileKind
  | svg : FileKind
deriving DecidableEq

/-- One downloadable file produced by the exporter: its `download` name and
its blob content. -/
structure SavedFile where
  name : String
  kind : FileKind
  payload : String
deriving DecidableEq

/-- Result of the asynchronous image decode of the svg data URL:
`img.onload` (line 59) or `img.onerror` (line 91). -/
inductive DecodeOutcome where
  | ok : DecodeOutcome
  | err : DecodeOutcome
deriving DecidableEq

/-- Result of the draw-and-encode step inside `img.onload`:
`canvas.toBlob` delivers a blob with the given bytes, delivers `null`
(line 64, the `if (blob)` guard fails), or `drawImage`/`toBlob` throws
synchronously into the `catch` of line 76. -/
inductive EncodeOutcome where
  | blob : String → EncodeOutcome
  | noBlob : EncodeOutcome
  | throwsErr : EncodeOutcome
deriving DecidableEq

/-- Observable effects of one `downloadAsPNG` invocation: the files handed to
the save action, the pixel-surface dimensions assigned at lines 42-43 (none
if never assigned), the serialized wire form of line 53 (none if never
computed), whether the decode was started (`img.src`, line 105), and the
container state after the call. -/
structure ExportTrace where
  files : List SavedFile
  canvasW : Option ℚ
  canvasH : Option ℚ
  svgData : Option String
  decodeStarted : Bool
  mountAfter : Option Container
deriving DecidableEq

/-- `downloadAsPNG` (lines 16-106).  `ref` is `mermaidRef.current`, `ctxOk`
tells whether `canvas.getContext('2d')` returned a context (line 36), `dec`
and `enc` are the outcomes of the two asynchronous external steps, and
`filename` defaults to `"mermaid-diagram.png"` at the call boundary. -/
def downloadAsPNG (ref : Option Container) (ctxOk : Bool)
    (dec : DecodeOutcome) (enc : EncodeOutcome) (filename : String) : ExportTrace :=
  match ref with
  | none => ⟨[], none, none, none, false, none⟩                  -- line 17
  | some cur =>
    match cur.svgChild with
    | none => ⟨[], none, none, none, false, some cur⟩            -- line 20
    | some svgElement =>
      -- line 23: clone the SVG to avoid modifying the original
      let svgClone := svgElement
      -- lines 26-28
      let svgWidth := svgWidthOf svgElement
      let svgHeight := svgHeightOf svgElement
      -- lines 31-32: explicit dimensions on the cloned SVG
      let svgClone := setAttribute svgClone ("width") (toString svgWidth)
      let svgClone := setAttribute svgClone ("height") (toString svgHeight)
      if ctxOk = false then
        -- lines 36-37: 2D context unavailable, bare return
        ⟨[], none, none, none, false, some cur⟩
      else
        -- lines 40-43: canvas dimensions with padding, at scale
        let padding : ℚ := 40
        let scale : ℚ := 2
        let canvasW := (svgWidth + padding * 2) * scale
        let canvasH := (svgHeight + padding * 2) * scale
        -- line 53: serialize the clone
        let svgData := serializeSvg svgClone
        -- lines 79-87 and 94-102: the vector fallback file
        let fallbackFile : SavedFile :=
          ⟨replaceFirst filename (".png") (".svg"), FileKind.svg, svgData⟩
        match dec with
        | DecodeOutcome.err =>
            -- line 91: decode failed, fall back to SVG
            ⟨[fallbackFile], some canvasW, some canvasH, some svgData, true, some cur⟩
        | DecodeOutcome.ok =>
            match enc with
            | EncodeOutcome.throwsErr =>
                -- line 76: draw/encode threw, fall back to SVG
                ⟨[fallbackFile], some canvasW, some canvasH, some svgData, true, some cur⟩
            | EncodeOutcome.noBlob =>
                -- line 65: `if (blob)` fails, nothing happens
                ⟨[], some canvasW, some canvasH, some svgData, true, some cur⟩
            | EncodeOutcome.blob bytes =>
                -- lines 66-73: save the raster file under the requested name
                ⟨[⟨filename, FileKind.png, bytes⟩],
                  some canvasW, some canvasH, some svgData, true, some cur⟩

/-! ### The render controller (source lines 112-175)

`renderChart` (lines 131-168) is an async closure re-run on every change of
`chart`; the await at line 142 is a suspension point, so completions may
resolve after later descriptions have already been requested and committed.
The controller is modelled as a step function over an event trace: a
`request i` event is the effect run for the `i`-th description, a
`complete i` event is the resumption of attempt `i`'s awaited engine call.
The engine itself is an opaque environment `res : Nat → Except String String`
giving each attempt's compile outcome. -/

/-- The visual mount point: `unmounted` when the component returned `null`
(line 174, empty or whitespace-only `chart`), otherwise the container with its
`innerHTML` and a flag telling whether the post-processing of lines 148-153
(max-width, auto height, transparent background) was applied to an svg child
found in it. -/
inductive Mount where
  | unmounted : Mount
  | html : String → Bool → Mount
deriving DecidableEq

/-- Controller state: the mount point plus the attempts started so far, each
recorded with the identifier computed for it at line 139. -/
structure RState where
  mount : Mount
  started : List (Nat × String)
deriving DecidableEq

/-- One scheduler event: a description-change effect run, or the resumption
of a pending engine compile. -/
inductive REvent where
  | request : Nat → REvent
  | complete : Nat → REvent
deriving DecidableEq

/-- Line 139: the render-attempt identifier, a template string of the
triggering instant `Date.now()` (milliseconds). -/
def attemptId (t : Nat) : String :=
  "mermaid-" ++ natDecimal t

/-- The fixed parts of the inline error panel committed at lines 156-165. -/
def errPre : String :=
  "\n            <div class=\"text-red-400 p-4 bg-red-900/20 border border-red-700/50 rounded-lg\">\n              <h3 class=\"font-semibold mb-2\">Error rendering diagram</h3>\n              <p class=\"text-sm\">Unable to render the mermaid diagram. Please check the syntax.</p>\n              <details class=\"mt-2\">\n                <summary class=\"cursor-pointer text-xs opacity-70\">Show error details</summary>\n                <pre class=\"text-xs mt-1 opacity-70\">"

/-- Closing part of the inline error panel. -/
def errPost : String :=
  "</pre>\n              </details>\n            </div>\n          "

/-- The full error panel: short message, then the error detail interpolated
behind the `<details>` disclosure. -/
def errorPanel (e : String) : String :=
  errPre ++ e ++ errPost

/-- What a completed attempt commits to the mount (lines 145-153 on success,
lines 156-165 on failure): on success the svg markup is inserted and the
cosmetic normalization runs when `querySelector('svg')` finds an svg element
(line 148); on failure the error panel is inserted and no styling runs.  The
`catch` swallows the engine error, so this is a total function — nothing
escapes to the caller. -/
def commitResult (r : Except String String) : Mount :=
  match r with
  | Except.ok svg => Mount.html svg (occursIn (("<svg").data) svg.data)
  | Except.error e => Mount.html (errorPanel e) false

/-- One controller step.  `desc i` is the `i`-th description, `time i` the
instant at which its effect runs.

`request i` (lines 131-142 up to the await, plus line 173): for a
whitespace-only description the component returns `null`, so the container is
unmounted and the effect's guard at line 132 starts no attempt; otherwise the
container shows with cleared `innerHTML` (line 136) and attempt `i` starts,
tagged `attemptId (time i)`.

`complete i` (lines 144-166): runs only for a started attempt.  If the
container has meanwhile been unmounted the DOM writes have no target and the
state is unchanged; otherwise the attempt's outcome is committed
unconditionally — the source has no staleness guard comparing `i` against the
latest requested description. -/
def renderStep (desc : Nat → String) (time : Nat → Nat)
    (res : Nat → Except String String) (s : RState) (e : REvent) : RState :=
  match e with
  | REvent.request i =>
      if trimmedEmpty (desc i) then ⟨Mount.unmounted, s.started⟩
      else ⟨Mount.html ("") false, s.started ++ [(i, attemptId (time i))]⟩
  | REvent.complete i =>
      if i ∈ s.started.map Prod.fst then
        match s.mount with
        | Mount.unmounted => s
        | Mount.html _ _ => ⟨commitResult (res i), s.started⟩
      else s

/-- Run a whole event trace from the initial state (nothing mounted, no
attempt started). -/
def runTrace (desc : Nat → String) (time : Nat → Nat)
    (res : Nat → Except String String) (events : List REvent) : RState :=
  events.foldl (renderStep desc time res) ⟨Mount.unmounted, []⟩

/-! ### Concrete fixtures used by the closed theorems -/

/-- A mounted svg element with a declared viewBox. -/
def testSvg : SvgElement :=
  ⟨some 100, some 50, 120, 60, none, none, "<rect/>"⟩

/-- Descriptions for the staleness scenario: every attempt has a non-empty
description. -/
def c1Desc : Nat → String := fun i => "graph TD " ++ natDecimal i

/-- Triggering instants for the staleness scenario. -/
def c1Time : Nat → Nat := fun i => 2000 + i

/-- Engine outcomes for the staleness scenario: every attempt compiles to a
distinct svg. -/
def c1Res : Nat → Except String String :=
  fun i => Except.ok ("<svg>" ++ natDecimal i ++ "</svg>")

/-- Descriptions for the same-tick identifier scenario. -/
def c7Desc : Nat → String := fun _ => "graph TD"

/-- Triggering instants for the same-tick identifier scenario: both attempts
start within the same millisecond. -/
def c7Time : Nat → Nat := fun _ => 1714

/-- Engine outcomes for the same-tick identifier scenario. -/
def c7Res : Nat → Except String String := fun _ => Except.ok ("<svg></svg>")

/-! ### Helper lemmas about the string machinery -/

theorem string_data_append (a b : String) : (a ++ b).data = a.data ++ b.data :=
  rfl

theorem isPrefixOfList_append (p : List Char) :
    ∀ l t, isPrefixOfList p l = true → isPrefixOfList p (l ++ t) = true := by
  induction p with
  | nil => intro l t _; cases l <;> simp [isPrefixOfList]
  | cons a as ih =>
      intro l t h
      cases l with
      | nil => simp [isPrefixOfList] at h
      | cons b bs =>
          simp only [isPrefixOfList, Bool.and_eq_true] at h
          simp only [List.cons_append, isPrefixOfList, Bool.and_eq_true]
          exact ⟨h.1, ih bs t h.2⟩

theorem isPrefixOfList_self_append : ∀ (l t : List Char), isPrefixOfList l (l ++ t) = true := by
  intro l
  induction l with
  | nil => intro t; cases t <;> simp [isPrefixOfList]
  | cons a as ih => intro t; simp [isPrefixOfList, ih]

theorem occursIn_of_isPrefixOfList (p l : List Char) (h : isPrefixOfList p l = true) :
    occursIn p l = true := by
  cases l with
  | nil =>
      cases p with
      | nil => rfl
      | cons a as => simp [isPrefixOfList] at h
  | cons c rest => simp [occursIn, h]

theorem occursIn_nil_pat : ∀ l : List Char, occursIn [] l = true := by
  intro l
  cases l with
  | nil => rfl
  | cons c rest => simp [occursIn, isPrefixOfList]

theorem occursIn_append_right (p : List Char) :
    ∀ a b, occursIn p b = true → occursIn p (a ++ b) = true := by
  intro a
  induction a with
  | nil => intro b h; simpa using h
  | cons c cs ih =>
      intro b h
      simp only [List.cons_append, occursIn, Bool.or_eq_true]
      exact Or.inr (ih b h)

theorem occursIn_append_left (p : List Char) :
    ∀ a b, occursIn p a = true → occursIn p (a ++ b) = true := by
  intro a
  induction a with
  | nil =>
      intro b h
      cases p with
      | nil => simpa using occursIn_nil_pat b
      | cons x xs => simp [occursIn] at h
  | cons c cs ih =>
      intro b h
      simp only [occursIn, Bool.or_eq_true] at h
      simp only [List.cons_append, occursIn, Bool.or_eq_true]
      rcases h with h | h
      · exact Or.inl (isPrefixOfList_append p _ b h)
      · exact Or.inr (ih b h)

theorem errorPanel_data (e : String) :
    (errorPanel e).data = errPre.data ++ (e.data ++ errPost.data) := by
  simp [errorPanel, string_data_append]

theorem string_append_cancel_left (p x y : String) (h : p ++ x = p ++ y) : x = y := by
  have hd : p.data ++ x.data = p.data ++ y.data := by
    have := congrArg String.data h
    simpa [string_data_append] using this
  have hxy : x.data = y.data := List.append_cancel_left hd
  cases x
  cases y
  exact congrArg String.mk hxy

/-! ### Claim theorems: the raster exporter -/

/-- Claim C3: for every export of a vector element with logical dimensions
`W × H`, the allocated pixel surface has width `(W + 80) * 2` and height
`(H + 80) * 2` — a pad of 40 logical units per side applied before the fixed
up-scale factor of 2. -/
theorem C3_canvas_padding_scale (svg : SvgElement) (dec : DecodeOutcome)
    (enc : EncodeOutcome) (f : String) :
    (downloadAsPNG (some ⟨some svg⟩) true dec enc f).canvasW
      = some ((svgWidthOf svg + 80) * 2) ∧
    (downloadAsPNG (some ⟨some svg⟩) true dec enc f).canvasH
      = some ((svgHeightOf svg + 80) * 2) := by
  cases dec <;> cases enc <;> simp [downloadAsPNG] <;> norm_num

/-- Claim C2 counterexample: with a non-empty vector element mounted, a
working 2D context and a successful decode, an export during which the pixel
encoder completes without delivering a blob (`canvas.toBlob` hands the
callback `null`) produces zero downloadable files — the claim demands exactly
one. -/
theorem C2_encode_noBlob_zero_files :
    ((downloadAsPNG (some ⟨some testSvg⟩) true DecodeOutcome.ok EncodeOutcome.noBlob
        ("mermaid-diagram.png")).files).length = 0 := by
  rfl

/-- Claim C2 (amended): an export with a non-empty mounted vector element and
an available 2D context produces exactly one downloadable file — the raster
on successful decode-and-encode, the vector fallback on decode failure or on
a thrown draw/encode error — except that it produces zero files when the
pixel encoder completes without delivering a blob; no export invocation ever
produces two files. -/
theorem C2_file_count :
    (∀ (svg : SvgElement) (dec : DecodeOutcome) (enc : EncodeOutcome) (f : String),
        ((downloadAsPNG (some ⟨some svg⟩) true dec enc f).files).length =
          match dec, enc with
          | DecodeOutcome.ok, EncodeOutcome.noBlob => 0
          | _, _ => 1) ∧
    (∀ (ref : Option Container) (c : Bool) (dec : DecodeOutcome) (enc : EncodeOutcome)
        (f : String), ((downloadAsPNG ref c dec enc f).files).length ≤ 1) := by
  constructor
  · intro svg dec enc f
    cases dec <;> cases enc <;> simp [downloadAsPNG]
  · intro ref c dec enc f
    rcases ref with _ | ⟨_ | svg⟩ <;> cases c <;> cases dec <;> cases enc <;>
      simp [downloadAsPNG]

/-- Claim C5: an export invocation made when no vector element is mounted —
either no container (`mermaidRef.current` null) or a container with no svg
child — is a silent no-op: no file, no canvas, no serialization, no decode,
and the mount state is unchanged. -/
theorem C5_export_noop_when_unmounted (c : Bool) (dec : DecodeOutcome)
    (enc : EncodeOutcome) (f : String) :
    downloadAsPNG none c dec enc f = ⟨[], none, none, none, false, none⟩ ∧
    downloadAsPNG (some ⟨none⟩) c dec enc f
      = ⟨[], none, none, none, false, some ⟨none⟩⟩ :=
  ⟨rfl, rfl⟩

/-- Claim C6: every export invocation leaves the mounted vector element
unchanged — the exporter stamps dimensions only on its clone — so the
serialized form of the mounted element after the call equals its serialized
form before the call. -/
theorem C6_export_preserves_mount (ref : Option Container) (c : Bool)
    (dec : DecodeOutcome) (enc : EncodeOutcome) (f : String) :
    (downloadAsPNG ref c dec enc f).mountAfter = ref ∧
    ((downloadAsPNG ref c dec enc f).mountAfter.bind Container.svgChild).map serializeSvg
      = (ref.bind Container.svgChild).map serializeSvg := by
  have h : (downloadAsPNG ref c dec enc f).mountAfter = ref := by
    rcases ref with _ | ⟨_ | svg⟩ <;> cases c <;> cases dec <;> cases enc <;>
      simp [downloadAsPNG]
  exact ⟨h, by rw [h]⟩

/-- Claim C9 counterexample: for the requested filename `"diagram.png.png"`
the fallback saves under `"diagram.svg.png"` — JS `replace` rewrites the
first occurrence of `".png"`, not the extension — whereas replacing the
raster extension while keeping the base filename would give
`"diagram.png.svg"`. -/
theorem C9_fallback_keeps_png_extension :
    ((downloadAsPNG (some ⟨some testSvg⟩) true DecodeOutcome.err EncodeOutcome.noBlob
        ("diagram.png.png")).files).map SavedFile.name = ["diagram.svg.png"] ∧
    ("diagram.svg.png" : String) ≠ "diagram.png.svg" := by
  constructor
  · rfl
  · decide

/-- Claim C9 (amended): on every export fallback (decode failure or thrown
draw/encode error) the saved vector file's name is the requested filename
with the first occurrence of the substring `".png"` replaced by `".svg"`
(the name is unchanged when `".png"` does not occur); for the defaulted
filename `"mermaid-diagram.png"` this yields `"mermaid-diagram.svg"`. -/
theorem C9_fallback_name_first_occurrence :
    (∀ (svg : SvgElement) (enc : EncodeOutcome) (f : String),
        ((downloadAsPNG (some ⟨some svg⟩) true DecodeOutcome.err enc f).files).map
            SavedFile.name
          = [replaceFirst f (".png") (".svg")]) ∧
    (∀ (svg : SvgElement) (f : String),
        ((downloadAsPNG (some ⟨some svg⟩) true DecodeOutcome.ok EncodeOutcome.throwsErr
            f).files).map SavedFile.name
          = [replaceFirst f (".png") (".svg")]) ∧
    replaceFirst ("mermaid-diagram.png") (".png") (".svg") = "mermaid-diagram.svg" ∧
    replaceFirst ("diagram.jpeg") (".png") (".svg") = "diagram.jpeg" := by
  refine ⟨?_, ?_, by decide, by decide⟩
  · intro svg enc f
    cases enc <;> rfl
  · intro svg f
    rfl

/-- Claim C10: if a vector element is mounted but the 2D drawing context
cannot be obtained, the export returns silently before any serialization,
decode or save step: no file of either kind, no canvas dimensions assigned,
no serialized data, no decode started, and the mount state unchanged. -/
theorem C10_ctx_failure_silent (svg : SvgElement) (dec : DecodeOutcome)
    (enc : EncodeOutcome) (f : String) :
    downloadAsPNG (some ⟨some svg⟩) false dec enc f
      = ⟨[], none, none, none, false, some ⟨some svg⟩⟩ := by
  rfl

/-! ### Claim theorems: the render controller -/

/-- Claim C1 (code bug evidence): for descriptions D1 (attempt 1) then D2
(attempt 2), both requested before attempt 1 completes, with attempt 2's
result committed first, the final mount state is attempt 1's outcome — the
completion handler overwrites the mount unconditionally, so a result for D1
is applied after D2's result was already committed, while the claim requires
the final mount to reflect D2's outcome. -/
theorem C1_stale_result_overwrites_newer :
    (runTrace c1Desc c1Time c1Res
        [REvent.request 1, REvent.request 2, REvent.complete 2, REvent.complete 1]).mount
      = commitResult (c1Res 1) ∧
    commitResult (c1Res 1) ≠ commitResult (c1Res 2) := by
  constructor
  · rfl
  · decide

/-- Claim C4: a description change to an empty or whitespace-only string
leaves the mount point empty (the component renders nothing) and starts no
render attempt; this idle state is not an error panel. -/
theorem C4_idle_state (desc : Nat → String) (time : Nat → Nat)
    (res : Nat → Except String String) (s : RState) (i : Nat)
    (h : trimmedEmpty (desc i) = true) :
    renderStep desc time res s (REvent.request i) = ⟨Mount.unmounted, s.started⟩ := by
  simp [renderStep, h]

/-- Claim C4 witness: a concrete whitespace-only description unmounts the
container of a previously rendered chart and starts no new attempt. -/
theorem C4_idle_state_witness :
    renderStep (fun _ => "   ") (fun _ => 0) (fun _ => Except.ok (""))
        ⟨Mount.html ("<svg>old</svg>") true, [(0, attemptId 0)]⟩ (REvent.request 1)
      = ⟨Mount.unmounted, [(0, attemptId 0)]⟩ :=
  C4_idle_state _ _ _ _ 1 (by decide)

/-- Claim C7 counterexample: two distinct render attempts whose effects run
within the same scheduling tick (the same `Date.now()` millisecond) receive
identical render-attempt identifiers — the identifier list of the run has a
duplicate even though the attempts are distinct. -/
theorem C7_same_tick_ids_collide :
    ¬ ((runTrace c7Desc c7Time c7Res
          [REvent.request 1, REvent.request 2]).started.map Prod.snd).Nodup ∧
    ((runTrace c7Desc c7Time c7Res
          [REvent.request 1, REvent.request 2]).started.map Prod.fst).Nodup := by
  decide

/-- Claim C7 (amended): every render attempt for a non-empty description is
tagged with an identifier derived from the triggering instant, and two
identifiers are equal exactly when the triggering instants are equal — so
identifiers are unique across attempts triggered at distinct instants, but
attempts starting within the same scheduling tick share one identifier
rather than receiving unique ones. -/
theorem C7_attempt_ids_unique_iff_distinct_instants :
    (∀ t1 t2 : Nat, attemptId t1 = attemptId t2 ↔ t1 = t2) ∧
    (runTrace c7Desc c7Time c7Res
        [REvent.request 1, REvent.request 2]).started.map Prod.snd
      = [attemptId 1714, attemptId 1714] := by
  constructor
  · intro t1 t2
    constructor
    · intro h
      exact natDecimal_inj t1 t2
        (string_append_cancel_left ("mermaid-") (natDecimal t1) (natDecimal t2) h)
    · intro h
      rw [h]
  · rfl

set_option maxRecDepth 40000 in
/-- Claim C8: a render attempt whose compilation fails commits a
human-readable error panel to the mounted container — containing the short
message, the full error detail, and a disclosure control — and the handler
returns a state rather than throwing the failure to its caller. -/
theorem C8_compile_failure_panel (desc : Nat → String) (time : Nat → Nat)
    (res : Nat → Except String String) (s : RState) (i : Nat)
    (content : String) (st : Bool) (e : String)
    (hm : s.mount = Mount.html content st)
    (hi : i ∈ s.started.map Prod.fst)
    (he : res i = Except.error e) :
    (renderStep desc time res s (REvent.complete i)).mount
      = Mount.html (errorPanel e) false ∧
    occursIn (("Error rendering diagram").data) ((errorPanel e).data) = true ∧
    occursIn (("Show error details").data) ((errorPanel e).data) = true ∧
    occursIn (("<details").data) ((errorPanel e).data) = true ∧
    occursIn (e.data) ((errorPanel e).data) = true := by
  refine ⟨?_, ?_, ?_, ?_, ?_⟩
  · simp [renderStep, hi, hm, commitResult, he]
  · rw [errorPanel_data]
    exact occursIn_append_left _ _ _ (by decide)
  · rw [errorPanel_data]
    exact occursIn_append_left _ _ _ (by decide)
  · rw [errorPanel_data]
    exact occursIn_append_left _ _ _ (by decide)
  · rw [errorPanel_data]
    exact occursIn_append_right e.data errPre.data (e.data ++ errPost.data)
      (occursIn_of_isPrefixOfList e.data (e.data ++ errPost.data)
        (isPrefixOfList_self_append e.data errPost.data))

/-- Claim C8 witness: a concrete failed attempt commits the error panel for
its engine message, and that panel contains the short message, the
disclosure control and the error detail. -/
theorem C8_compile_failure_panel_witness :
    (renderStep (fun _ => "graph TD") (fun _ => 0) (fun _ => Except.error ("boom"))
        ⟨Mount.html ("") false, [(0, attemptId 0)]⟩ (REvent.complete 0)).mount
      = Mount.html (errorPanel ("boom")) false ∧
    occursIn (("Error rendering diagram").data) ((errorPanel ("boom")).data) = true ∧
    occursIn (("Show error details").data) ((errorPanel ("boom")).data) = true ∧
    occursIn (("<details").data) ((errorPanel ("boom")).data) = true ∧
    occursIn (("boom").data) ((errorPanel ("boom")).data) = true :=
  C8_compile_failure_panel (fun _ => "graph TD") (fun _ => 0)
    (fun _ => Except.error ("boom")) ⟨Mount.html ("") false, [(0, attemptId 0)]⟩ 0
    ("") false ("boom") rfl (by decide) rfl
